import Mathlib

/-!
Shallow embedding of the core of `mcp-fabric-api` (TypeScript) and proofs
about it.  The embedded components are:

* `WorkspaceGuard` (src/core/errors.ts): destructive-action authorization
  guard with glob-pattern matching and a per-process name cache;
* `TokenManager` (src/auth/token-manager.ts): multi-scope credential cache
  with a refresh buffer and tenant switching;
* `pollOperation` (src/core/lro.ts): long-running-operation poller;
* `paginateAll` (src/core/lro.ts): continuation-token pagination walker.

Conventions of the embedding: the HTTP client is an oracle function
(`resolve`, `acquire`, `server`); wall-clock time is an explicit parameter;
each stateful method returns (result, new state, number of oracle calls),
so "no network call is issued" is a statement about that count.
JavaScript truthiness of strings is modelled explicitly: `undefined`/`null`
become `Option.none`, and the empty string is falsy.
-/

namespace McpFabric

/-- Decidable equality for `Except` results, so that concrete runs of the
embedded operations can be checked by `decide`. -/
instance {ε α : Type} [DecidableEq ε] [DecidableEq α] : DecidableEq (Except ε α) := fun a b =>
  match a, b with
  | .error e, .error f => decidable_of_iff (e = f) (by simp)
  | .error _, .ok _ => isFalse (by simp)
  | .ok _, .error _ => isFalse (by simp)
  | .ok x, .ok y => decidable_of_iff (x = y) (by simp)

/-! ## Glob matching (WorkspaceGuard.matchesPattern, src/core/errors.ts)

The source builds `"^" + pattern.split("*").map(escapeRegExp).join(".*") + "$"`
and tests it case-insensitively.  We embed the *denotation* of that regex:
the pattern is split on `'*'` into literal segments (regex-escaping makes
every segment character literal, so escaping vanishes in the denotation),
and a name matches when it decomposes into the segments with arbitrary
gaps in between, all compared on lowercased characters. -/

/-- Embedding of JavaScript `pattern.split("*")` on character lists:
splits into the (possibly empty) literal segments between the stars. -/
def splitOnStar : List Char → List (List Char)
  | [] => [[]]
  | c :: rest =>
    if c = '*' then [] :: splitOnStar rest
    else
      match splitOnStar rest with
      | [] => [[c]]
      | s :: ss => (c :: s) :: ss

/-- `anySuffix f cs` is true when `f` holds of some suffix of `cs`
(including `cs` itself): the search a `.*` gap performs. -/
def anySuffix (f : List Char → Bool) : List Char → Bool
  | [] => f []
  | c :: cs => f (c :: cs) || anySuffix f cs

/-- Executable matcher for the anchored regex `^s₀.*s₁.* … .*sₖ$` built from
literal segments `[s₀, …, sₖ]`: the first segment must sit at the start, the
last at the end, and consecutive segments may be separated by anything. -/
def segsMatch : List (List Char) → List Char → Bool
  | [], cs => cs.isEmpty
  | [s], cs => s == cs
  | s :: t :: rest, cs =>
    List.isPrefixOf s cs && anySuffix (segsMatch (t :: rest)) (cs.drop s.length)

/-- Embedding of `WorkspaceGuard.matchesPattern`: case-insensitive test of
the name against the glob pattern (the regex `i` flag is modelled by
lowercasing both sides). -/
def matchesPattern (name pattern : String) : Bool :=
  segsMatch (splitOnStar (pattern.data.map Char.toLower)) (name.data.map Char.toLower)

/-- Declarative language of the regex the source constructs
(`^` ++ segments joined by `.*` ++ `$`): a word is in the language of
segments `[s₀, …, sₖ]` exactly when it is `s₀ ++ g₁ ++ s₁ ++ … ++ gₖ ++ sₖ`
for arbitrary gap words `gᵢ`. -/
inductive GlobLang : List (List Char) → List Char → Prop
  | nil : GlobLang [] []
  | single (s : List Char) : GlobLang [s] s
  | cons (s g : List Char) {t : List Char} {rest : List (List Char)} {w : List Char} :
      GlobLang (t :: rest) w → GlobLang (s :: t :: rest) (s ++ (g ++ w))

/-! ## WorkspaceGuard (src/core/errors.ts) -/

/-- The two failure kinds of the guard, kept distinct as in the source,
where the "not configured" and "denied" errors carry different messages
(`GuardNotConfigured` vs `GuardDenied` in the spec's taxonomy). -/
inductive GuardError
  | notConfigured
  | denied (name : String) (patterns : List String)
deriving DecidableEq

/-- State of a `WorkspaceGuard`: configured patterns, the precomputed
allow-all flag, and the per-process display-name cache (newest entry
first; `List.lookup` finds the newest, matching `Map.get` after
`Map.set`). -/
structure WorkspaceGuard where
  patterns : List String
  allowAll : Bool
  nameCache : List (String × String)
deriving DecidableEq

/-- Guard state as the constructor leaves it, given the already-split
pattern list: `allowAll` iff the list contains the `"*"` sentinel, empty
name cache. -/
def WorkspaceGuard.ofPatterns (ps : List String) : WorkspaceGuard :=
  ⟨ps, ps.contains "*", []⟩

/-- Embedding of the `WorkspaceGuard` constructor: `WRITABLE_WORKSPACES` is
trimmed (an absent or blank variable yields no patterns — the empty string
is falsy), split on commas, each entry trimmed, empty entries dropped. -/
def WorkspaceGuard.create (env : Option String) : WorkspaceGuard :=
  match env with
  | none => WorkspaceGuard.ofPatterns []
  | some e =>
    let t := e.trim
    if t.isEmpty then WorkspaceGuard.ofPatterns []
    else WorkspaceGuard.ofPatterns
      (((t.splitOn ",").map String.trim).filter fun p => p.length > 0)

/-- The name-cache probe at the top of `assertWorkspaceAllowed`: a stored
display name is used only when it is truthy, i.e. non-empty (`if (!name)`
in the source re-fetches on `undefined` and on `""` alike). -/
def cachedName (g : WorkspaceGuard) (workspaceId : String) : Option String :=
  match List.lookup workspaceId g.nameCache with
  | some n => if n.isEmpty then none else some n
  | none => none

/-- Embedding of `WorkspaceGuard.assertWorkspaceAllowed`.  `resolve` is the
oracle for `fabricClient.get("/workspaces/{id}").data.displayName`; the
returned `Nat` counts how many times it was called. -/
def assertWorkspaceAllowed (g : WorkspaceGuard) (resolve : String → String)
    (workspaceId : String) : Except GuardError Unit × WorkspaceGuard × Nat :=
  if g.allowAll then (.ok (), g, 0)
  else if g.patterns.isEmpty then (.error .notConfigured, g, 0)
  else
    let step : String × WorkspaceGuard × Nat :=
      match cachedName g workspaceId with
      | some n => (n, g, 0)
      | none =>
        let n := resolve workspaceId
        (n, ⟨g.patterns, g.allowAll, (workspaceId, n) :: g.nameCache⟩, 1)
    let name := step.1
    let g2 := step.2.1
    if g.patterns.any (fun p => matchesPattern name p) then (.ok (), g2, step.2.2)
    else (.error (.denied name g.patterns), g2, step.2.2)

/-- `n` successive `assertWorkspaceAllowed` calls for the same identifier,
threading the guard state; returns the final state and the total number of
name-resolution calls. -/
def assertRepeat (resolve : String → String) (workspaceId : String) :
    Nat → WorkspaceGuard → WorkspaceGuard × Nat
  | 0, g => (g, 0)
  | n + 1, g =>
    let r := assertWorkspaceAllowed g resolve workspaceId
    let rest := assertRepeat resolve workspaceId n r.2.1
    (rest.1, r.2.2 + rest.2)

/-! ## TokenManager (src/auth/token-manager.ts) -/

/-- The four token audiences. -/
inductive Scope
  | fabric
  | powerbi
  | database
  | kusto
deriving DecidableEq

/-- Embedding of the scope-to-URL mapping at the top of `getToken`. -/
def scopeUrl : Scope → String
  | .fabric => "https://api.fabric.microsoft.com/.default"
  | .powerbi => "https://analysis.windows.net/powerbi/api/.default"
  | .database => "https://database.windows.net/.default"
  | .kusto => "https://api.kusto.windows.net/.default"

/-- `REFRESH_BUFFER_MS = 5 * 60 * 1000`. -/
def REFRESH_BUFFER_MS : Int := 5 * 60 * 1000

/-- An `AccessToken` as cached by the manager: the bearer string and its
expiry in epoch milliseconds. -/
structure AccessToken where
  token : String
  expiresOnTimestamp : Int
deriving DecidableEq

/-- State of a `TokenManager`: the scope-URL-keyed token cache (newest
entry first, as in `WorkspaceGuard`) and the active tenant. -/
structure TokenManager where
  cache : List (String × AccessToken)
  currentTenantId : Option String
deriving DecidableEq

/-- Error kind for a failed acquisition (`AuthenticationFailed` in the
spec's taxonomy). -/
inductive TokenError
  | acquisitionFailed
deriving DecidableEq

/-- Embedding of `TokenManager.getToken`.  `acquire` is the oracle for
`credential.getToken(scopeUrl)` (`none` models a null token or a thrown
provider error), `now` is `Date.now()`; the returned `Nat` counts
underlying acquisitions.  A cached token is returned only when
`expiresOnTimestamp - now > REFRESH_BUFFER_MS`. -/
def getToken (m : TokenManager) (acquire : String → Option AccessToken)
    (now : Int) (scope : Scope) : Except TokenError String × TokenManager × Nat :=
  let url := scopeUrl scope
  let hit : Option AccessToken :=
    match List.lookup url m.cache with
    | some cached =>
      if cached.expiresOnTimestamp - now > REFRESH_BUFFER_MS then some cached else none
    | none => none
  match hit with
  | some cached => (.ok cached.token, m, 0)
  | none =>
    match acquire url with
    | none => (.error .acquisitionFailed, m, 1)
    | some tok => (.ok tok.token, ⟨(url, tok) :: m.cache, m.currentTenantId⟩, 1)

/-- Embedding of `TokenManager.switchTenant`: replaces the active tenant
and clears the whole cache.  The function takes no oracle, reflecting that
the source method performs no network call. -/
def switchTenant (_m : TokenManager) (tenantId : Option String) : TokenManager :=
  ⟨[], tenantId⟩

/-! ## Operation poller (pollOperation, src/core/lro.ts) -/

/-- The status values of `OperationState` (src/core/types.ts). -/
inductive OpStatus
  | NotStarted
  | Running
  | Succeeded
  | Failed
  | Cancelled
  | Undefined
deriving DecidableEq

/-- The optional `error` payload of an `OperationState`. -/
structure OpErrorInfo where
  errorCode : String
  message : String
deriving DecidableEq

/-- The fields of `OperationState` the poller reads. -/
structure OperationState where
  status : OpStatus
  error : Option OpErrorInfo
deriving DecidableEq

/-- Outcome of the poll loop.  `operationFailed` carries the message,
HTTP-style status code and provider error code of the `FabricApiError`
thrown on a Failed state; `operationTimeout` carries the fixed 408 /
"OperationTimeout" pair thrown when the budget is exhausted. -/
inductive PollResult
  | ok (s : OperationState)
  | operationFailed (message : String) (statusCode : Nat) (errorCode : Option String)
  | operationTimeout (statusCode : Nat) (errorCode : String)
deriving DecidableEq

/-- Embedding of the `pollOperation` loop body from iteration `k` on, with
explicit fuel (`none` = fuel exhausted before the loop returned).  Time is
idealized: each fetch is instantaneous and each sleep advances the clock by
`interval`, so at iteration `k` the elapsed wall-clock is `k * interval`;
the source checks `Date.now() - start > timeout` after the fetch. -/
def pollFrom (seq : Nat → OperationState) (interval timeout : Nat) :
    Nat → Nat → Option PollResult
  | 0, _ => none
  | fuel + 1, k =>
    let st := seq k
    if st.status = .Succeeded ∨ st.status = .Failed ∨ st.status = .Cancelled then
      if st.status = .Failed then
        some (.operationFailed ((st.error.map OpErrorInfo.message).getD "Operation failed")
          500 (st.error.map OpErrorInfo.errorCode))
      else some (.ok st)
    else if k * interval > timeout then
      some (.operationTimeout 408 "OperationTimeout")
    else pollFrom seq interval timeout fuel (k + 1)

/-- `pollOperation`, started at iteration 0. -/
def pollOperation (seq : Nat → OperationState) (interval timeout fuel : Nat) :
    Option PollResult :=
  pollFrom seq interval timeout fuel 0

/-- The loop stops at iteration `k` iff the fetched status is terminal or
the budget is exceeded there. -/
def pollStops (seq : Nat → OperationState) (interval timeout k : Nat) : Prop :=
  (seq k).status = .Succeeded ∨ (seq k).status = .Failed ∨ (seq k).status = .Cancelled ∨
    k * interval > timeout

instance (seq : Nat → OperationState) (interval timeout k : Nat) :
    Decidable (pollStops seq interval timeout k) := by
  unfold pollStops; infer_instance

/-! ## Pagination walker (paginateAll, src/core/lro.ts) -/

/-- The fields of one page's response body that `paginateAll` reads:
`data[resultKey]` (absent or null modelled as `none` — the source applies
`?? []`), `continuationUri` and `continuationToken` (absent/null as
`none`; JavaScript truthiness additionally makes the empty string act as
absent). -/
structure Page (T : Type) where
  items : Option (List T)
  continuationUri : Option String
  continuationToken : Option String
deriving DecidableEq

/-- JavaScript truthiness of an optional string: `none`, and the empty
string, are falsy. -/
def truthy : Option String → Option String
  | none => none
  | some s => if s.isEmpty then none else some s

/-- `FABRIC_BASE_URL` (src/client/fabric-client.ts). -/
def FABRIC_BASE_URL : String := "https://api.fabric.microsoft.com/v1"

/-- `currentPath.startsWith("http")`, modelled on the character list so
that concrete walks evaluate inside the kernel. -/
def startsWithHttp (p : String) : Bool :=
  List.isPrefixOf "http".data p.data

/-- `path.includes("?")`, modelled on the character list. -/
def hasQuery (p : String) : Bool :=
  p.data.contains '?'

/-- The URL a fetch for `currentPath` actually targets: `getFullUrl` uses
the path verbatim when it starts with `"http"`, else `get` prefixes the
base URL (the walker's `isFullUrl` dispatch plus the client). -/
def requestUrl (p : String) : String :=
  if startsWithHttp p then p else FABRIC_BASE_URL ++ p

/-- The continuation decision at the bottom of the `paginateAll` loop: a
truthy `continuationUri` wins and becomes the next path as-is; else a
truthy `continuationToken` is appended to the *original* `path` with `&`
when that path already contains `?`, else with `?`; else the walk ends. -/
def nextPath {T : Type} (startPath : String) (page : Page T) : Option String :=
  match truthy page.continuationUri with
  | some uri => some uri
  | none =>
    match truthy page.continuationToken with
    | some tok =>
      let separator := if hasQuery startPath then "&" else "?"
      some (startPath ++ separator ++ "continuationToken=" ++ tok)
    | none => none

/-- Embedding of the `paginateAll` loop with explicit fuel.  `server` maps
the actually requested URL to a page or a fetch error; the result pairs
the walker's outcome (a fetch error propagates, discarding the
accumulator) with the trace of requested URLs, for statements about which
URL each fetch targets. -/
def paginateAux {E T : Type} (server : String → Except E (Page T)) (startPath : String) :
    Nat → String → List T → Option (Except E (List T) × List String)
  | 0, _, _ => none
  | fuel + 1, current, acc =>
    let url := requestUrl current
    match server url with
    | .error e => some (.error e, [url])
    | .ok page =>
      let acc2 := acc ++ page.items.getD []
      match nextPath startPath page with
      | none => some (.ok acc2, [url])
      | some next =>
        (paginateAux server startPath fuel next acc2).map fun r => (r.1, url :: r.2)

/-- `paginateAll`: the walk starts at `path` with an empty accumulator and
`path` as the base for token continuations. -/
def paginateAll {E T : Type} (server : String → Except E (Page T)) (path : String)
    (fuel : Nat) : Option (Except E (List T) × List String) :=
  paginateAux server path fuel path []

/-- A successful page chain: `Chain server startPath p pages trace` says
that starting from path `p` the server serves `pages` in order, each
non-final page's continuation decision leads to the next path, the final
page carries no continuation signal, and `trace` is the list of requested
URLs. -/
inductive Chain {E T : Type} (server : String → Except E (Page T)) (startPath : String) :
    String → List (Page T) → List String → Prop
  | last {p : String} {page : Page T} :
      server (requestUrl p) = .ok page → nextPath startPath page = none →
      Chain server startPath p [page] [requestUrl p]
  | step {p q : String} {page : Page T} {rest : List (Page T)} {trace : List String} :
      server (requestUrl p) = .ok page → nextPath startPath page = some q →
      Chain server startPath q rest trace →
      Chain server startPath p (page :: rest) (requestUrl p :: trace)

/-- A chain that ends in a fetch failure: the server serves `pages` and
then errors with `e` on the next request. -/
inductive ChainFail {E T : Type} (server : String → Except E (Page T)) (startPath : String) :
    String → List (Page T) → List String → E → Prop
  | here {p : String} {e : E} :
      server (requestUrl p) = .error e →
      ChainFail server startPath p [] [requestUrl p] e
  | step {p q : String} {page : Page T} {rest : List (Page T)} {trace : List String} {e : E} :
      server (requestUrl p) = .ok page → nextPath startPath page = some q →
      ChainFail server startPath q rest trace e →
      ChainFail server startPath p (page :: rest) (requestUrl p :: trace) e

/-- The items a list of pages contributes, in order. -/
def pagesItems {T : Type} (pages : List (Page T)) : List T :=
  pages.flatMap fun page => page.items.getD []

/-- Demo server for concrete walks: two pages of a listing under `/ws`,
linked by the continuation token `t1`. -/
def twoPageServer : String → Except String (Page Nat) := fun u =>
  if u = "https://api.fabric.microsoft.com/v1/ws" then
    .ok ⟨some [1, 2], none, some "t1"⟩
  else if u = "https://api.fabric.microsoft.com/v1/ws?continuationToken=t1" then
    .ok ⟨some [3], none, none⟩
  else .error "bad"

/-- Demo server: a single page with no continuation signal. -/
def onePageServer : String → Except String (Page Nat) := fun _ =>
  .ok ⟨some [9], none, none⟩

/-- Demo server: first page succeeds with a continuation token, every
other fetch fails. -/
def failSecondServer : String → Except String (Page Nat) := fun u =>
  if u = "https://api.fabric.microsoft.com/v1/ws" then
    .ok ⟨some [1, 2], none, some "t1"⟩
  else .error "boom"

/-- Demo status sequence: Running twice, then Succeeded. -/
def seqSucceeds : Nat → OperationState := fun j =>
  if j < 2 then ⟨.Running, none⟩ else ⟨.Succeeded, none⟩

/-- Demo status sequence: Running once, then Failed with a provider error
code and message. -/
def seqFails : Nat → OperationState := fun j =>
  if j < 1 then ⟨.Running, none⟩ else ⟨.Failed, some ⟨"ItemNameAlreadyInUse", "dup"⟩⟩

/-- Demo status sequence that never leaves Running. -/
def seqRunsForever : Nat → OperationState := fun _ => ⟨.Running, none⟩

/-! ## Theorems -/

/-- C2: with an allow-list containing the `"*"` sentinel, `assertAllowed`
returns success immediately, unchanged state, and zero name-resolution
calls; with an empty allow-list it fails with the `GuardNotConfigured`
kind, again without resolving; and that kind is distinct from the denied
kind. -/
theorem c2_sentinel_and_unconfigured :
    (∀ (ps : List String) (resolve : String → String) (workspaceId : String),
      "*" ∈ ps →
      assertWorkspaceAllowed (WorkspaceGuard.ofPatterns ps) resolve workspaceId =
        (.ok (), WorkspaceGuard.ofPatterns ps, 0)) ∧
    (∀ (resolve : String → String) (workspaceId : String),
      assertWorkspaceAllowed (WorkspaceGuard.ofPatterns []) resolve workspaceId =
        (.error .notConfigured, WorkspaceGuard.ofPatterns [], 0)) ∧
    (∀ (name : String) (ps : List String),
      GuardError.notConfigured ≠ GuardError.denied name ps) := by
  refine ⟨fun ps resolve workspaceId h => ?_, fun resolve workspaceId => ?_,
    fun name ps => by simp⟩
  · have hc : (WorkspaceGuard.ofPatterns ps).allowAll = true := by
      simpa [WorkspaceGuard.ofPatterns] using List.elem_iff.mpr h
    simp [assertWorkspaceAllowed, hc]
  · simp [assertWorkspaceAllowed, WorkspaceGuard.ofPatterns]

/-- Witness for C2 at the allow-list `["Alpha", "*"]` and the empty list. -/
theorem c2_sentinel_and_unconfigured_witness :
    ("*" ∈ ["Alpha", "*"] ∧
      assertWorkspaceAllowed (WorkspaceGuard.ofPatterns ["Alpha", "*"]) (fun s => s) "w1" =
        (.ok (), WorkspaceGuard.ofPatterns ["Alpha", "*"], 0)) ∧
    assertWorkspaceAllowed (WorkspaceGuard.ofPatterns []) (fun s => s) "w1" =
      (.error .notConfigured, WorkspaceGuard.ofPatterns [], 0) :=
  ⟨⟨by decide, c2_sentinel_and_unconfigured.1 ["Alpha", "*"] (fun s => s) "w1" (by decide)⟩,
    c2_sentinel_and_unconfigured.2.1 (fun s => s) "w1"⟩

/-- C5: a cached token is served (zero acquisitions) only while its
remaining lifetime strictly exceeds the 5-minute refresh buffer; once the
remaining lifetime is at or below the buffer a fresh acquisition happens
even though the token has not expired; and two calls within the buffer
window on an initially empty cache cost exactly one acquisition in
total. -/
theorem c5_refresh_buffer :
    (∀ (m : TokenManager) (acquire : String → Option AccessToken) (now : Int)
      (scope : Scope) (tok : AccessToken),
      List.lookup (scopeUrl scope) m.cache = some tok →
      tok.expiresOnTimestamp - now > REFRESH_BUFFER_MS →
      getToken m acquire now scope = (.ok tok.token, m, 0)) ∧
    (∀ (m : TokenManager) (acquire : String → Option AccessToken) (now : Int)
      (scope : Scope) (tok : AccessToken),
      List.lookup (scopeUrl scope) m.cache = some tok →
      now < tok.expiresOnTimestamp →
      tok.expiresOnTimestamp - now ≤ REFRESH_BUFFER_MS →
      (getToken m acquire now scope).2.2 = 1) ∧
    (∀ (tenant : Option String) (acquire : String → Option AccessToken) (t0 t1 : Int)
      (scope : Scope) (tok : AccessToken),
      acquire (scopeUrl scope) = some tok →
      tok.expiresOnTimestamp - t1 > REFRESH_BUFFER_MS →
      (getToken ⟨[], tenant⟩ acquire t0 scope).2.2 = 1 ∧
      getToken (getToken ⟨[], tenant⟩ acquire t0 scope).2.1 acquire t1 scope =
        (.ok tok.token, (getToken ⟨[], tenant⟩ acquire t0 scope).2.1, 0)) := by
  refine ⟨fun m acquire now scope tok hl hbuf => ?_,
    fun m acquire now scope tok hl _ hbuf => ?_,
    fun tenant acquire t0 t1 scope tok ha hbuf => ?_⟩
  · simp [getToken, hl, hbuf]
  · have : ¬ tok.expiresOnTimestamp - now > REFRESH_BUFFER_MS := by omega
    simp only [getToken, hl]
    rw [if_neg this]
    cases acquire (scopeUrl scope) <;> simp
  · have h1 : getToken ⟨[], tenant⟩ acquire t0 scope =
        (.ok tok.token, ⟨[(scopeUrl scope, tok)], tenant⟩, 1) := by
      simp [getToken, ha]
    rw [h1]
    refine ⟨rfl, ?_⟩
    simp [getToken, List.lookup, hbuf]

/-- Witness for C5: a token acquired at time 0 that expires at 1,000,000 ms
is served from the cache at time 100,000 (lifetime left 900,000 ms >
300,000 ms buffer) and re-acquired at time 800,000 (lifetime left
200,000 ms ≤ buffer, yet not expired). -/
theorem c5_refresh_buffer_witness :
    (List.lookup (scopeUrl .fabric) (⟨[(scopeUrl .fabric, ⟨"t", 1000000⟩)], none⟩ :
        TokenManager).cache = some ⟨"t", 1000000⟩ ∧
      ((1000000 : Int) - 100000 > REFRESH_BUFFER_MS) ∧
      getToken ⟨[(scopeUrl .fabric, ⟨"t", 1000000⟩)], none⟩ (fun _ => some ⟨"u", 2000000⟩)
          100000 .fabric =
        (.ok "t", ⟨[(scopeUrl .fabric, ⟨"t", 1000000⟩)], none⟩, 0)) ∧
    (((800000 : Int) < 1000000) ∧ ((1000000 : Int) - 800000 ≤ REFRESH_BUFFER_MS) ∧
      (getToken ⟨[(scopeUrl .fabric, ⟨"t", 1000000⟩)], none⟩ (fun _ => some ⟨"u", 2000000⟩)
          800000 .fabric).2.2 = 1) ∧
    ((fun _ => some (⟨"t", 1000000⟩ : AccessToken)) (scopeUrl Scope.fabric) =
        some ⟨"t", 1000000⟩ ∧
      ((1000000 : Int) - 100000 > REFRESH_BUFFER_MS) ∧
      (getToken ⟨[], none⟩ (fun _ => some ⟨"t", 1000000⟩) 0 .fabric).2.2 = 1 ∧
      getToken (getToken ⟨[], none⟩ (fun _ => some ⟨"t", 1000000⟩) 0 .fabric).2.1
          (fun _ => some ⟨"t", 1000000⟩) 100000 .fabric =
        (.ok "t", (getToken ⟨[], none⟩ (fun _ => some ⟨"t", 1000000⟩) 0 .fabric).2.1, 0)) :=
  ⟨⟨by decide, by decide,
      c5_refresh_buffer.1 _ _ 100000 .fabric ⟨"t", 1000000⟩ (by decide) (by decide)⟩,
    ⟨by decide, by decide,
      c5_refresh_buffer.2.1 _ _ 800000 .fabric ⟨"t", 1000000⟩ (by decide) (by decide) (by decide)⟩,
    by
      have := c5_refresh_buffer.2.2 none (fun _ => some ⟨"t", 1000000⟩) 0 100000 .fabric
        ⟨"t", 1000000⟩ (by decide) (by decide)
      exact ⟨by decide, by decide, this.1, this.2⟩⟩

/-- C8: `switchTenant` installs the new tenant, empties the whole token
cache (every scope's lookup misses), performs no acquisition (the embedded
function takes no oracle), and any subsequent `getToken` for any scope
performs exactly one fresh acquisition. -/
theorem c8_switch_tenant_clears_cache :
    ∀ (m : TokenManager) (tid : Option String),
      (switchTenant m tid).currentTenantId = tid ∧
      (switchTenant m tid).cache = [] ∧
      (∀ scope : Scope, List.lookup (scopeUrl scope) (switchTenant m tid).cache = none) ∧
      (∀ (acquire : String → Option AccessToken) (now : Int) (scope : Scope),
        (getToken (switchTenant m tid) acquire now scope).2.2 = 1) := by
  intro m tid
  refine ⟨rfl, rfl, fun _ => rfl, fun acquire now scope => ?_⟩
  simp only [getToken, switchTenant, List.lookup]
  cases acquire (scopeUrl scope) <;> simp

/-- C10: a page whose body lacks the items key (or maps it to null)
contributes zero items — the accumulator passes through unchanged — and
the walk still consults the page's continuation signals to decide whether
to continue or terminate; no failure is raised. -/
theorem c10_missing_items_key :
    ∀ (E T : Type) (server : String → Except E (Page T)) (sp : String) (fuel : Nat)
      (current : String) (acc : List T) (page : Page T),
      server (requestUrl current) = .ok page → page.items = none →
      paginateAux server sp (fuel + 1) current acc =
        match nextPath sp page with
        | none => some (.ok acc, [requestUrl current])
        | some next =>
          (paginateAux server sp fuel next acc).map fun r => (r.1, requestUrl current :: r.2) := by
  intro E T server sp fuel current acc page hs hitems
  cases hnp : nextPath sp page <;> simp [paginateAux, hs, hitems, hnp]

/-- Witness for C10: a first page with no items field but a continuation
token still leads to the second page, and the final result is just the
second page's items. -/
theorem c10_missing_items_key_witness :
    ((fun u =>
        if u = "https://api.fabric.microsoft.com/v1/ws" then
          Except.ok (⟨none, none, some "t1"⟩ : Page Nat)
        else if u = "https://api.fabric.microsoft.com/v1/ws?continuationToken=t1" then
          Except.ok (⟨some [7], none, none⟩ : Page Nat)
        else Except.error "bad") (requestUrl "/ws") =
      Except.ok (⟨none, none, some "t1"⟩ : Page Nat)) ∧
    (⟨none, none, some "t1"⟩ : Page Nat).items = none ∧
    paginateAux (fun u =>
        if u = "https://api.fabric.microsoft.com/v1/ws" then
          Except.ok (⟨none, none, some "t1"⟩ : Page Nat)
        else if u = "https://api.fabric.microsoft.com/v1/ws?continuationToken=t1" then
          Except.ok (⟨some [7], none, none⟩ : Page Nat)
        else Except.error "bad") "/ws" 2 "/ws" [] =
      match nextPath "/ws" (⟨none, none, some "t1"⟩ : Page Nat) with
      | none => some (.ok [], [requestUrl "/ws"])
      | some next =>
        (paginateAux (fun u =>
            if u = "https://api.fabric.microsoft.com/v1/ws" then
              Except.ok (⟨none, none, some "t1"⟩ : Page Nat)
            else if u = "https://api.fabric.microsoft.com/v1/ws?continuationToken=t1" then
              Except.ok (⟨some [7], none, none⟩ : Page Nat)
            else Except.error "bad") "/ws" 1 next []).map
          fun r => (r.1, requestUrl "/ws" :: r.2) :=
  ⟨by decide, by decide,
    c10_missing_items_key String Nat _ "/ws" 1 "/ws" [] ⟨none, none, some "t1"⟩
      (by decide) (by decide)⟩

/-- C7: a (truthy) continuation URL takes precedence over any continuation
token and becomes the next path verbatim; with no truthy URL, a truthy
token re-targets the original `startPath` with `continuationToken=<tok>`
appended after `&` when the path already has a query string and `?`
otherwise; the loop's next fetch indeed targets the continuation; and an
absolute (`http…`) path is requested verbatim, bypassing base-URL
prefixing. -/
theorem c7_continuation_precedence :
    (∀ (T : Type) (sp : String) (page : Page T) (uri : String),
      page.continuationUri = some uri → uri ≠ "" →
      nextPath sp page = some uri) ∧
    (∀ (T : Type) (sp : String) (page : Page T) (tok : String),
      truthy page.continuationUri = none →
      page.continuationToken = some tok → tok ≠ "" →
      nextPath sp page =
        some (sp ++ (if hasQuery sp then "&" else "?") ++ "continuationToken=" ++ tok)) ∧
    (∀ (E T : Type) (server : String → Except E (Page T)) (sp : String) (fuel : Nat)
      (current : String) (acc : List T) (page : Page T) (q : String),
      server (requestUrl current) = .ok page → nextPath sp page = some q →
      paginateAux server sp (fuel + 1) current acc =
        (paginateAux server sp fuel q (acc ++ page.items.getD [])).map
          fun r => (r.1, requestUrl current :: r.2)) ∧
    (∀ u : String, startsWithHttp u = true → requestUrl u = u) := by
  refine ⟨fun T sp page uri hu hne => ?_, fun T sp page tok hu ht hne => ?_,
    fun E T server sp fuel current acc page q hs hnp => ?_,
    fun u hu => by simp [requestUrl, hu]⟩
  · have : uri.isEmpty = false := by
      cases h : uri.isEmpty
      · rfl
      · exact absurd ((String.isEmpty_iff uri).mp h) hne
    simp [nextPath, truthy, hu, this]
  · have : tok.isEmpty = false := by
      cases h : tok.isEmpty
      · rfl
      · exact absurd ((String.isEmpty_iff tok).mp h) hne
    simp only [nextPath, hu, ht]
    simp [truthy, this]
  · simp [paginateAux, hs, hnp]

/-- Witness for C7: a page carrying both a continuation URL and a token
continues at the URL; a token-only page on a query-bearing start path
appends with `&`; the loop's next request targets the continuation URL
verbatim. -/
theorem c7_continuation_precedence_witness :
    ((⟨some [1], some "http://n/p2", some "tokX"⟩ : Page Nat).continuationUri =
        some "http://n/p2" ∧ "http://n/p2" ≠ "" ∧
      nextPath "/ws" (⟨some [1], some "http://n/p2", some "tokX"⟩ : Page Nat) =
        some "http://n/p2") ∧
    (truthy (⟨some [1], none, some "tokX"⟩ : Page Nat).continuationUri = none ∧
      (⟨some [1], none, some "tokX"⟩ : Page Nat).continuationToken = some "tokX" ∧
      "tokX" ≠ "" ∧
      nextPath "/ws?a=1" (⟨some [1], none, some "tokX"⟩ : Page Nat) =
        some ("/ws?a=1" ++ (if hasQuery "/ws?a=1" then "&" else "?") ++
          "continuationToken=" ++ "tokX")) ∧
    (startsWithHttp "http://n/p2" = true ∧ requestUrl "http://n/p2" = "http://n/p2") :=
  ⟨⟨by decide, by decide,
      c7_continuation_precedence.1 Nat "/ws" ⟨some [1], some "http://n/p2", some "tokX"⟩
        "http://n/p2" (by decide) (by decide)⟩,
    ⟨by decide, by decide, by decide,
      c7_continuation_precedence.2.1 Nat "/ws?a=1" ⟨some [1], none, some "tokX"⟩
        "tokX" (by decide) (by decide) (by decide)⟩,
    ⟨by decide, c7_continuation_precedence.2.2.2 "http://n/p2" (by decide)⟩⟩

/-- Walking a successful chain from `p` with enough fuel yields the
accumulator followed by all pages' items, and the trace of requested
URLs recorded in the chain. -/
theorem chain_paginateAux {E T : Type} {server : String → Except E (Page T)} {sp : String}
    {p : String} {pages : List (Page T)} {trace : List String}
    (h : Chain server sp p pages trace) :
    ∀ (acc : List T) (fuel : Nat), pages.length ≤ fuel →
      paginateAux server sp fuel p acc = some (.ok (acc ++ pagesItems pages), trace) := by
  induction h with
  | last hs hn =>
    intro acc fuel hf
    match fuel, hf with
    | f + 1, _ => simp [paginateAux, hs, hn, pagesItems]
  | step hs hn _ ih =>
    intro acc fuel hf
    match fuel, hf with
    | f + 1, hf =>
      have hf' := Nat.le_of_succ_le_succ (by simpa using hf)
      simp [paginateAux, hs, hn, ih _ f hf', pagesItems, List.append_assoc]

/-- A chain's trace has one requested URL per page. -/
theorem chain_trace_length {E T : Type} {server : String → Except E (Page T)} {sp : String}
    {p : String} {pages : List (Page T)} {trace : List String}
    (h : Chain server sp p pages trace) : trace.length = pages.length := by
  induction h with
  | last _ _ => rfl
  | step _ _ _ ih => simpa using ih

/-- C4: for every chain of K pages linked by continuation signals whose
last page carries neither signal, `paginateAll` returns exactly the
concatenation of the pages' items in order (any K ≥ 1, including K = 1),
and the walk performs exactly K fetches — it stops with the first page
that has no truthy continuation URL and no truthy continuation token. -/
theorem c4_paginate_all_collects_in_order :
    ∀ (E T : Type) (server : String → Except E (Page T)) (sp : String)
      (pages : List (Page T)) (trace : List String) (fuel : Nat),
      Chain server sp sp pages trace → pages.length ≤ fuel →
      paginateAll server sp fuel = some (.ok (pagesItems pages), trace) ∧
      trace.length = pages.length := by
  intro E T server sp pages trace fuel h hf
  refine ⟨?_, chain_trace_length h⟩
  simpa using chain_paginateAux h [] fuel hf

/-- Witness for C4: three items split across two token-linked pages come
back as `[1, 2, 3]` after exactly two fetches; a single signal-free page
(K = 1) comes back as its own items after one fetch. -/
theorem c4_paginate_all_collects_in_order_witness :
    (Chain twoPageServer "/ws" "/ws"
        [⟨some [1, 2], none, some "t1"⟩, ⟨some [3], none, none⟩]
        ["https://api.fabric.microsoft.com/v1/ws",
          "https://api.fabric.microsoft.com/v1/ws?continuationToken=t1"] ∧
      ([⟨some [1, 2], none, some "t1"⟩, (⟨some [3], none, none⟩ : Page Nat)].length ≤ 2) ∧
      paginateAll twoPageServer "/ws" 2 =
        some (.ok [1, 2, 3],
          ["https://api.fabric.microsoft.com/v1/ws",
            "https://api.fabric.microsoft.com/v1/ws?continuationToken=t1"])) ∧
    (Chain onePageServer "/one" "/one"
        [⟨some [9], none, none⟩] ["https://api.fabric.microsoft.com/v1/one"] ∧
      paginateAll onePageServer "/one" 1 =
        some (.ok [9], ["https://api.fabric.microsoft.com/v1/one"])) := by
  have hchain : Chain twoPageServer "/ws" "/ws"
      [⟨some [1, 2], none, some "t1"⟩, ⟨some [3], none, none⟩]
      ["https://api.fabric.microsoft.com/v1/ws",
        "https://api.fabric.microsoft.com/v1/ws?continuationToken=t1"] :=
    @Chain.step String Nat twoPageServer "/ws" "/ws" "/ws?continuationToken=t1"
      ⟨some [1, 2], none, some "t1"⟩ [⟨some [3], none, none⟩]
      ["https://api.fabric.microsoft.com/v1/ws?continuationToken=t1"]
      (by decide) (by decide)
      (@Chain.last String Nat twoPageServer "/ws" "/ws?continuationToken=t1"
        ⟨some [3], none, none⟩ (by decide) (by decide))
  have hone : Chain onePageServer "/one" "/one"
      [⟨some [9], none, none⟩] ["https://api.fabric.microsoft.com/v1/one"] :=
    @Chain.last String Nat onePageServer "/one" "/one" ⟨some [9], none, none⟩
      (by decide) (by decide)
  have h2 := c4_paginate_all_collects_in_order String Nat twoPageServer "/ws" _ _ 2 hchain
    (by decide)
  have h1 := c4_paginate_all_collects_in_order String Nat onePageServer "/one" _ _ 1 hone
    (by decide)
  exact ⟨⟨hchain, by decide, by simpa using h2.1⟩, hone, by simpa using h1.1⟩

/-- Walking a chain that ends in a fetch failure propagates exactly that
error: the accumulated items are discarded. -/
theorem chainFail_paginateAux {E T : Type} {server : String → Except E (Page T)} {sp : String}
    {p : String} {pages : List (Page T)} {trace : List String} {e : E}
    (h : ChainFail server sp p pages trace e) :
    ∀ (acc : List T) (fuel : Nat), pages.length < fuel →
      paginateAux server sp fuel p acc = some (.error e, trace) := by
  induction h with
  | here hs =>
    intro acc fuel hf
    match fuel, hf with
    | f + 1, _ => simp [paginateAux, hs]
  | step hs hn _ ih =>
    intro acc fuel hf
    match fuel, hf with
    | f + 1, hf =>
      have hf' : _ < f := Nat.lt_of_succ_lt_succ (by simpa using hf)
      simp [paginateAux, hs, hn, ih _ f hf']

/-- C6: when the fetch of page k (after k successfully fetched pages)
fails, `paginateAll` returns exactly that fetch error — the items of the
first k pages are discarded, never returned. -/
theorem c6_fetch_error_discards_partial_results :
    ∀ (E T : Type) (server : String → Except E (Page T)) (sp : String)
      (pages : List (Page T)) (trace : List String) (e : E) (fuel : Nat),
      ChainFail server sp sp pages trace e → pages.length < fuel →
      paginateAll server sp fuel = some (.error e, trace) ∧
      ∀ (items : List T) (tr : List String),
        paginateAll server sp fuel ≠ some (.ok items, tr) := by
  intro E T server sp pages trace e fuel h hf
  have hrun : paginateAll server sp fuel = some (.error e, trace) := by
    simpa using chainFail_paginateAux h [] fuel hf
  refine ⟨hrun, fun items tr hcontra => ?_⟩
  rw [hrun] at hcontra
  simp at hcontra

/-- Witness for C6: the first page yields `[1, 2]` and a token, the second
fetch fails; the walk returns the error and never `[1, 2]`. -/
theorem c6_fetch_error_discards_partial_results_witness :
    (ChainFail failSecondServer "/ws" "/ws"
        [⟨some [1, 2], none, some "t1"⟩]
        ["https://api.fabric.microsoft.com/v1/ws",
          "https://api.fabric.microsoft.com/v1/ws?continuationToken=t1"] "boom" ∧
      (([(⟨some [1, 2], none, some "t1"⟩ : Page Nat)].length < 2))) ∧
    paginateAll failSecondServer "/ws" 2 =
      some (.error "boom",
        ["https://api.fabric.microsoft.com/v1/ws",
          "https://api.fabric.microsoft.com/v1/ws?continuationToken=t1"]) ∧
    paginateAll failSecondServer "/ws" 2 ≠
      some (.ok [1, 2], ["https://api.fabric.microsoft.com/v1/ws"]) := by
  have hchain : ChainFail failSecondServer "/ws" "/ws"
      [⟨some [1, 2], none, some "t1"⟩]
      ["https://api.fabric.microsoft.com/v1/ws",
        "https://api.fabric.microsoft.com/v1/ws?continuationToken=t1"] "boom" :=
    @ChainFail.step String Nat failSecondServer "/ws" "/ws" "/ws?continuationToken=t1"
      ⟨some [1, 2], none, some "t1"⟩ []
      ["https://api.fabric.microsoft.com/v1/ws?continuationToken=t1"] "boom"
      (by decide) (by decide)
      (@ChainFail.here String Nat failSecondServer "/ws" "/ws?continuationToken=t1" "boom"
        (by decide))
  have h := c6_fetch_error_discards_partial_results String Nat failSecondServer "/ws" _ _
    "boom" 2 hchain (by decide)
  exact ⟨⟨hchain, by decide⟩, h.1, h.2 [1, 2] ["https://api.fabric.microsoft.com/v1/ws"]⟩

/-- Iterations at which the loop neither sees a terminal status nor has
exceeded the budget are passed through, each consuming one unit of fuel. -/
theorem pollFrom_skip (seq : Nat → OperationState) (interval timeout : Nat) :
    ∀ (n a fuel : Nat), (∀ j, j < n → ¬ pollStops seq interval timeout (a + j)) →
      pollFrom seq interval timeout (fuel + n) a = pollFrom seq interval timeout fuel (a + n) := by
  intro n
  induction n with
  | zero => intro a fuel _; rfl
  | succ m ih =>
    intro a fuel h
    have h0 : ¬ pollStops seq interval timeout a := by
      simpa using h 0 (Nat.succ_pos m)
    have hterm : ¬((seq a).status = .Succeeded ∨ (seq a).status = .Failed ∨
        (seq a).status = .Cancelled) := by
      intro hc
      exact h0 (by unfold pollStops; tauto)
    have htime : ¬ a * interval > timeout := by
      intro hc
      exact h0 (by unfold pollStops; tauto)
    have hstep : pollFrom seq interval timeout (fuel + m + 1) a =
        pollFrom seq interval timeout (fuel + m) (a + 1) := by
      simp only [pollFrom]
      rw [if_neg hterm, if_neg htime]
    have ih' := ih (a + 1) fuel (by
      intro j hj
      have hx := h (j + 1) (Nat.succ_lt_succ hj)
      have e : a + (j + 1) = a + 1 + j := by omega
      rwa [e] at hx)
    have e2 : a + 1 + m = a + (m + 1) := by omega
    rw [show fuel + (m + 1) = fuel + m + 1 from rfl, hstep, ih', e2]

/-- C3: with `k` the first iteration at which the loop stops, `poll`
returns the fetched state when it is Succeeded or Cancelled; throws the
`OperationFailed`-kind error carrying the reported provider error code and
message (HTTP 500) when it is Failed; throws the `OperationTimeout`-kind
error (HTTP 408, code "OperationTimeout") when the elapsed time exceeds
`timeoutMs` while the status is still non-terminal; and the two failure
kinds are distinguishable. -/
theorem c3_poll_operation_outcomes :
    (∀ (seq : Nat → OperationState) (interval timeout k : Nat),
      (∀ j, j < k → ¬ pollStops seq interval timeout j) →
      (((seq k).status = .Succeeded ∨ (seq k).status = .Cancelled) →
        pollOperation seq interval timeout (k + 1) = some (.ok (seq k))) ∧
      ((seq k).status = .Failed →
        pollOperation seq interval timeout (k + 1) =
          some (.operationFailed (((seq k).error.map OpErrorInfo.message).getD "Operation failed")
            500 ((seq k).error.map OpErrorInfo.errorCode))) ∧
      (((seq k).status ≠ .Succeeded ∧ (seq k).status ≠ .Failed ∧ (seq k).status ≠ .Cancelled ∧
          k * interval > timeout) →
        pollOperation seq interval timeout (k + 1) =
          some (.operationTimeout 408 "OperationTimeout"))) ∧
    (∀ (m : String) (sc : Nat) (ec : Option String) (sc2 : Nat) (ec2 : String),
      PollResult.operationFailed m sc ec ≠ PollResult.operationTimeout sc2 ec2) := by
  refine ⟨fun seq interval timeout k h => ?_, fun m sc ec sc2 ec2 => by simp⟩
  have hskip : pollOperation seq interval timeout (k + 1) =
      pollFrom seq interval timeout 1 k := by
    have hs := pollFrom_skip seq interval timeout k 0 1 (by simpa using h)
    unfold pollOperation
    rw [Nat.add_comm k 1]
    simpa using hs
  refine ⟨fun hsc => ?_, fun hf => ?_, ?_⟩
  · rw [hskip]
    rcases hsc with hx | hx <;> simp [pollFrom, hx]
  · rw [hskip]
    simp [pollFrom, hf]
  · rintro ⟨h1, h2, h3, h4⟩
    rw [hskip]
    simp [pollFrom, h1, h2, h3, h4]

/-- Witness for C3 on the three demo sequences: `[Running, Running,
Succeeded]` resolves at iteration 2; `[Running, Failed(code, msg)]` throws
the failure error carrying the code and message; an always-Running
sequence with interval 2 ms and budget 5 ms times out at iteration 3. -/
theorem c3_poll_operation_outcomes_witness :
    ((∀ j, j < 2 → ¬ pollStops seqSucceeds 1 10 j) ∧
      pollOperation seqSucceeds 1 10 3 = some (.ok ⟨.Succeeded, none⟩)) ∧
    ((∀ j, j < 1 → ¬ pollStops seqFails 1 10 j) ∧
      pollOperation seqFails 1 10 2 =
        some (.operationFailed "dup" 500 (some "ItemNameAlreadyInUse"))) ∧
    ((∀ j, j < 3 → ¬ pollStops seqRunsForever 2 5 j) ∧
      pollOperation seqRunsForever 2 5 4 = some (.operationTimeout 408 "OperationTimeout")) := by
  have h1 := (c3_poll_operation_outcomes.1 seqSucceeds 1 10 2 (by decide)).1 (by decide)
  have h2 := (c3_poll_operation_outcomes.1 seqFails 1 10 1 (by decide)).2.1 (by decide)
  have h3 := (c3_poll_operation_outcomes.1 seqRunsForever 2 5 3 (by decide)).2.2
    (by refine ⟨by decide, by decide, by decide, by decide⟩)
  exact ⟨⟨by decide, by simpa [seqSucceeds] using h1⟩,
    ⟨by decide, by simpa [seqFails] using h2⟩,
    ⟨by decide, h3⟩⟩

/-- `anySuffix f cs` succeeds exactly when `f` accepts some suffix of
`cs`. -/
theorem anySuffix_iff (f : List Char → Bool) :
    ∀ cs : List Char, anySuffix f cs = true ↔ ∃ suf, suf <:+ cs ∧ f suf = true := by
  intro cs
  induction cs with
  | nil => simp [anySuffix]
  | cons c cs ih =>
    simp only [anySuffix, Bool.or_eq_true, ih]
    constructor
    · rintro (hf | ⟨suf, hsuf, hf⟩)
      · exact ⟨c :: cs, List.suffix_refl _, hf⟩
      · exact ⟨suf, hsuf.trans (List.suffix_cons c cs), hf⟩
    · rintro ⟨suf, hsuf, hf⟩
      rcases List.suffix_cons_iff.mp hsuf with h | h
      · exact Or.inl (h ▸ hf)
      · exact Or.inr ⟨suf, h, hf⟩

/-- The executable segment matcher decides exactly the declarative
language of the regex the source constructs from the segments. -/
theorem segsMatch_iff_globLang :
    ∀ (segs : List (List Char)) (cs : List Char),
      segsMatch segs cs = true ↔ GlobLang segs cs := by
  intro segs
  induction segs with
  | nil =>
    intro cs
    simp only [segsMatch, List.isEmpty_eq_true]
    constructor
    · rintro rfl; exact GlobLang.nil
    · intro h; cases h; rfl
  | cons s segs ih =>
    intro cs
    cases segs with
    | nil =>
      simp only [segsMatch, beq_iff_eq]
      constructor
      · rintro rfl; exact GlobLang.single s
      · intro h; cases h; rfl
    | cons t rest =>
      simp only [segsMatch, Bool.and_eq_true, List.isPrefixOf_iff_prefix, anySuffix_iff]
      constructor
      · rintro ⟨⟨cs', rfl⟩, suf, hsuf, hm⟩
        rw [List.drop_left] at hsuf
        obtain ⟨g, rfl⟩ := hsuf
        exact GlobLang.cons s g ((ih _).mp hm)
      · intro h
        cases h
        rename_i g w hw
        refine ⟨⟨g ++ w, rfl⟩, ?_⟩
        rw [List.drop_left]
        exact ⟨w, List.suffix_append g w, (ih w).mpr hw⟩

/-- C1: the match predicate holds exactly when the (lowercased) name lies
in the language of the anchored regex obtained by splitting the
(lowercased) pattern on `'*'` and rejoining the literal segments with
`.*`; concretely, the guard configured with `["*-Dev", "Sandbox*"]`
permits workspaces whose display names resolve to "Sales-Dev",
"Sandbox-42" and "sales-dev", and denies "Sales-Prod". -/
theorem c1_glob_match_semantics :
    (∀ name pattern : String,
      matchesPattern name pattern = true ↔
        GlobLang (splitOnStar (pattern.data.map Char.toLower))
          (name.data.map Char.toLower)) ∧
    (assertWorkspaceAllowed (WorkspaceGuard.ofPatterns ["*-Dev", "Sandbox*"])
        (fun s => s) "Sales-Dev").1 = .ok () ∧
    (assertWorkspaceAllowed (WorkspaceGuard.ofPatterns ["*-Dev", "Sandbox*"])
        (fun s => s) "Sandbox-42").1 = .ok () ∧
    (assertWorkspaceAllowed (WorkspaceGuard.ofPatterns ["*-Dev", "Sandbox*"])
        (fun s => s) "sales-dev").1 = .ok () ∧
    (assertWorkspaceAllowed (WorkspaceGuard.ofPatterns ["*-Dev", "Sandbox*"])
        (fun s => s) "Sales-Prod").1 =
      .error (.denied "Sales-Prod" ["*-Dev", "Sandbox*"]) :=
  ⟨fun _ _ => segsMatch_iff_globLang _ _, by decide, by decide, by decide, by decide⟩

/-- On a truthy cache hit (non-empty stored name) for an enforcing guard,
one `assertAllowed` call leaves the state unchanged and issues no
resolution call. -/
theorem assert_hit_no_call (g : WorkspaceGuard) (resolve : String → String)
    (workspaceId nm : String) (hA : g.allowAll = false) (hP : g.patterns.isEmpty = false)
    (hc : cachedName g workspaceId = some nm) :
    (assertWorkspaceAllowed g resolve workspaceId).2.1 = g ∧
    (assertWorkspaceAllowed g resolve workspaceId).2.2 = 0 := by
  simp only [assertWorkspaceAllowed, hA, hP, hc]
  cases g.patterns.any (fun p => matchesPattern nm p) <;> simp

/-- On a cache miss for an enforcing guard, one `assertAllowed` call
issues exactly one resolution call and stores the resolved name. -/
theorem assert_miss_one_call (g : WorkspaceGuard) (resolve : String → String)
    (workspaceId : String) (hA : g.allowAll = false) (hP : g.patterns.isEmpty = false)
    (hc : cachedName g workspaceId = none) :
    (assertWorkspaceAllowed g resolve workspaceId).2.1 =
      ⟨g.patterns, g.allowAll, (workspaceId, resolve workspaceId) :: g.nameCache⟩ ∧
    (assertWorkspaceAllowed g resolve workspaceId).2.2 = 1 := by
  simp only [assertWorkspaceAllowed, hA, hP, hc]
  cases g.patterns.any (fun p => matchesPattern (resolve workspaceId) p) <;> simp

/-- With the allow-all sentinel configured, repeated calls never resolve
and never change the state. -/
theorem assertRepeat_allowAll (resolve : String → String) (workspaceId : String) :
    ∀ (n : Nat) (g : WorkspaceGuard), g.allowAll = true →
      assertRepeat resolve workspaceId n g = (g, 0) := by
  intro n
  induction n with
  | zero => intro g _; rfl
  | succ m ih =>
    intro g hA
    simp only [assertRepeat, assertWorkspaceAllowed, hA]
    simp [ih g hA]

/-- With an empty allow-list, repeated calls fail fast: no resolution, no
state change. -/
theorem assertRepeat_noPatterns (resolve : String → String) (workspaceId : String) :
    ∀ (n : Nat) (g : WorkspaceGuard), g.allowAll = false → g.patterns.isEmpty = true →
      assertRepeat resolve workspaceId n g = (g, 0) := by
  intro n
  induction n with
  | zero => intro g _ _; rfl
  | succ m ih =>
    intro g hA hP
    simp only [assertRepeat, assertWorkspaceAllowed, hA, hP]
    simp [ih g hA hP]

/-- After a truthy name is cached, repeated calls stay on the cache. -/
theorem assertRepeat_of_hit (resolve : String → String) (workspaceId nm : String) :
    ∀ (n : Nat) (g : WorkspaceGuard), g.allowAll = false → g.patterns.isEmpty = false →
      cachedName g workspaceId = some nm →
      assertRepeat resolve workspaceId n g = (g, 0) := by
  intro n
  induction n with
  | zero => intro g _ _ _; rfl
  | succ m ih =>
    intro g hA hP hc
    have h1 := assert_hit_no_call g resolve workspaceId nm hA hP hc
    simp only [assertRepeat]
    rw [h1.1, h1.2, ih g hA hP hc]
    simp

/-- C9 counterexample: with the non-empty, non-sentinel allow-list
`["Team-*"]` and a workspace whose display name resolves to the empty
string, two successive `assertAllowed` calls for the same identifier issue
two resolution calls, not at most one: the empty stored name is falsy in
the source's `if (!name)` cache test, so the cache never takes effect. -/
theorem c9_repeated_calls_counterexample :
    ¬ ((assertRepeat (fun _ => "") "w1" 2 (WorkspaceGuard.ofPatterns ["Team-*"])).2 ≤ 1) := by
  decide

/-- C9 amended: starting from a fresh (empty) name cache, repeated
`assertAllowed` calls for one identifier issue at most one resolution
call, provided the resolved display name is non-empty (an empty display
name fails the truthiness test on the cached value and is re-fetched on
every call). -/
theorem c9_resolution_at_most_once :
    ∀ (g : WorkspaceGuard) (resolve : String → String) (workspaceId : String) (n : Nat),
      resolve workspaceId ≠ "" → g.nameCache = [] →
      (assertRepeat resolve workspaceId n g).2 ≤ 1 := by
  intro g resolve workspaceId n hres hcache
  cases hA : g.allowAll with
  | true =>
    rw [assertRepeat_allowAll resolve workspaceId n g hA]
    simp
  | false =>
    cases hP : g.patterns.isEmpty with
    | true =>
      rw [assertRepeat_noPatterns resolve workspaceId n g hA hP]
      simp
    | false =>
      cases n with
      | zero => exact Nat.zero_le 1
      | succ m =>
        have hc : cachedName g workspaceId = none := by
          simp [cachedName, hcache]
        have h1 := assert_miss_one_call g resolve workspaceId hA hP hc
        have hne : (resolve workspaceId).isEmpty = false := by
          cases h : (resolve workspaceId).isEmpty
          · rfl
          · exact absurd ((String.isEmpty_iff _).mp h) hres
        have hc2 : cachedName ⟨g.patterns, g.allowAll,
            (workspaceId, resolve workspaceId) :: g.nameCache⟩ workspaceId =
            some (resolve workspaceId) := by
          simp [cachedName, hne]
        have hrest := assertRepeat_of_hit resolve workspaceId (resolve workspaceId) m
          ⟨g.patterns, g.allowAll, (workspaceId, resolve workspaceId) :: g.nameCache⟩
          hA hP hc2
        simp only [assertRepeat]
        rw [h1.1, h1.2, hrest]
        simp

/-- Witness for the amended C9: three repeated calls with allow-list
`["Team-*"]` and display name "Team-42" cost at most one resolution
call. -/
theorem c9_resolution_at_most_once_witness :
    ((fun s : String => s) "Team-42" ≠ "" ∧
      (WorkspaceGuard.ofPatterns ["Team-*"]).nameCache = []) ∧
    (assertRepeat (fun s => s) "Team-42" 3 (WorkspaceGuard.ofPatterns ["Team-*"])).2 ≤ 1 :=
  ⟨⟨by decide, by decide⟩,
    c9_resolution_at_most_once (WorkspaceGuard.ofPatterns ["Team-*"]) (fun s => s)
      "Team-42" 3 (by decide) (by decide)⟩

end McpFabric
